import Mathlib

/-!
Verification of the FoodLoop donation lifecycle.

Shallow embedding of the donation state machine and claim arbitration from
core/models.py (Donation.claim, Donation.complete, Donation.cancel,
UserProfile.is_dietary_compatible) and
core/services/donation_services.py (DonationService.claim_donation,
complete_donation, cancel_donation, _validate_claim_eligibility,
_calculate_nutrition_score).

Time is modelled as integer seconds (an Int valued clock named now); users
are identified by natural numbers; the database, where a count over other
rows is needed, is a list of donations.
-/

namespace FoodLoop

/-- Donation.STATUS_CHOICES in core/models.py. -/
inductive DStatus where
  | available
  | claimed
  | completed
  | cancelled
  | expired
deriving DecidableEq, Repr

/-- get_status_display().lower() as used in _validate_claim_eligibility:
the human readable form of each status choice, lowercased. -/
def DStatus.displayLower : DStatus → String
  | .available => "available"
  | .claimed => "claimed"
  | .completed => "completed"
  | .cancelled => "cancelled"
  | .expired => "expired"

/-- The Donation model of core/models.py, restricted to the fields the
lifecycle operations read or write. recipient is nullable (null until
claimed); claimed_at and completed_at are nullable timestamps. -/
structure Donation where
  donor : Nat
  recipient : Option Nat
  title : String
  description : String
  food_category : String
  quantity : Int
  status : DStatus
  expiry_datetime : Int
  pickup_start : Int
  pickup_end : Int
  pickup_location : String
  dietary_tags : List String
  estimated_calories : Option Int
  nutrition_score : Int
  claimed_at : Option Int
  completed_at : Option Int
deriving DecidableEq, Repr

/-- The UserProfile model of core/models.py, restricted to the fields the
lifecycle reads: role, email verification flag and dietary restrictions. -/
structure UserProfile where
  user : Nat
  user_type : String
  email_verified : Bool
  dietary_restrictions : List String
deriving DecidableEq, Repr

/-- UserProfile.DONOR. -/
def UserProfile.DONOR : String := "donor"

/-- UserProfile.RECIPIENT. -/
def UserProfile.RECIPIENT : String := "recipient"

/-- Donation.is_expired: timezone.now() >= self.expiry_datetime. -/
def Donation.is_expired (d : Donation) (now : Int) : Bool :=
  d.expiry_datetime ≤ now

/-- Donation.is_pickup_overdue: timezone.now() > self.pickup_end. -/
def Donation.is_pickup_overdue (d : Donation) (now : Int) : Bool :=
  d.pickup_end < now

/-- Donation.claim in core/models.py. Raising ValidationError is modelled
as returning some message together with the state of the row after the
method ran: on the not-available branch the row is untouched; on the
expired branch the method first sets status to EXPIRED and saves, then
raises; on success it sets recipient, status and claimed_at. -/
def Donation.claim (d : Donation) (now : Int) (user : Nat) :
    Option String × Donation :=
  if d.status ≠ .available then
    (some "This donation is not available", d)
  else if d.is_expired now then
    (some "This donation has expired", { d with status := .expired })
  else
    (none, { d with recipient := some user, status := .claimed,
                    claimed_at := some now })

/-- Donation.complete in core/models.py. -/
def Donation.complete (d : Donation) (now : Int) :
    Option String × Donation :=
  if d.status ≠ .claimed then
    (some "Only claimed donations can be completed", d)
  else
    (none, { d with status := .completed, completed_at := some now })

/-- Donation.cancel in core/models.py: refuses COMPLETED and EXPIRED
rows before mutating, otherwise sets status to CANCELLED. -/
def Donation.cancel (d : Donation) : Option String × Donation :=
  if d.status = .completed ∨ d.status = .expired then
    (some ("Cannot cancel " ++ d.status.displayLower ++ " donation"), d)
  else
    (none, { d with status := .cancelled })

/-- Python str.lower on the tag vocabulary (ASCII), written over the
character list so it reduces inside the kernel. -/
def strLower (s : String) : String :=
  ⟨s.data.map Char.toLower⟩

/-- UserProfile.is_dietary_compatible in core/models.py: true when the
profile has no restrictions, otherwise true iff every (lowercased)
restriction appears among the (lowercased) donation tags. -/
def UserProfile.is_dietary_compatible (p : UserProfile) (d : Donation) :
    Bool :=
  if p.dietary_restrictions.isEmpty then
    true
  else
    (p.dietary_restrictions.map strLower).all
      (fun r => (d.dietary_tags.map strLower).contains r)

/-- get_allergen_tags in core/validators.py. -/
def get_allergen_tags : List String :=
  ["gluten", "dairy", "nuts", "peanuts", "shellfish", "soy", "eggs", "fish"]

/-- get_lifestyle_tags in core/validators.py. -/
def get_lifestyle_tags : List String :=
  ["vegetarian", "vegan", "halal", "kosher", "organic"]

/-- The ServiceResponse of core/services/base.py restricted to what the
lifecycle theorems read, together with the donation row as left by the
call (the row itself on every validation failure). -/
structure ServiceResult where
  success : Bool
  message : String
  donation : Donation
deriving Repr

/-- DonationService.MAX_ACTIVE_CLAIMS. -/
def MAX_ACTIVE_CLAIMS : Nat := 5

/-- Donation.objects.filter(recipient=recipient, status=CLAIMED).count()
over the database list. -/
def countActiveClaims (db : List Donation) (recipient : Nat) : Nat :=
  (db.filter
    (fun d => d.recipient = some recipient ∧ d.status = .claimed)).length

/-- DonationService._validate_claim_eligibility: the checks in source
order; returns the first failing message, none when all pass. -/
def validate_claim_eligibility (now : Int) (db : List Donation)
    (d : Donation) (p : UserProfile) : Option String :=
  if p.user_type ≠ UserProfile.RECIPIENT then
    some "Only recipients can claim donations"
  else if ¬ p.email_verified then
    some "Please verify your email before claiming donations"
  else if d.status ≠ .available then
    some ("This donation is " ++ d.status.displayLower)
  else if d.is_expired now then
    some "This donation has expired"
  else if d.is_pickup_overdue now then
    some "The pickup window has passed"
  else if countActiveClaims db p.user ≥ MAX_ACTIVE_CLAIMS then
    some ("You have reached the maximum of " ++ toString MAX_ACTIVE_CLAIMS
      ++ " active claims")
  else
    none

/-- DonationService.claim_donation: under the row lock, run
_validate_claim_eligibility and return its message on failure without
touching the row; otherwise run Donation.claim. A ValidationError
escaping Donation.claim would abort the transaction, rolling the row
back, and be mapped to an error response by handle_exception. -/
def claim_donation (now : Int) (db : List Donation) (d : Donation)
    (p : UserProfile) : ServiceResult :=
  match validate_claim_eligibility now db d p with
  | some e => { success := false, message := e, donation := d }
  | none =>
    match d.claim now p.user with
    | (some e, _) =>
      { success := false,
        message := "donation claim: Validation error - " ++ e,
        donation := d }
    | (none, d2) =>
      { success := true, message := "Donation claimed successfully",
        donation := d2 }

/-- DonationService.complete_donation: actor must be the donor or the
recipient (the recipient comparison is against a possibly null field),
status must be CLAIMED; then Donation.complete runs. -/
def complete_donation (now : Int) (d : Donation) (user : Nat) :
    ServiceResult :=
  if user ≠ d.donor ∧ some user ≠ d.recipient then
    { success := false,
      message := "You are not authorized to complete this donation",
      donation := d }
  else if d.status ≠ .claimed then
    { success := false,
      message := "Only claimed donations can be completed",
      donation := d }
  else
    match d.complete now with
    | (some e, _) =>
      { success := false,
        message := "donation completion: Validation error - " ++ e,
        donation := d }
    | (none, d2) =>
      { success := true,
        message := "Donation completed successfully. Please rate your experience!",
        donation := d2 }

/-- DonationService.cancel_donation: actor must be the donor; only
COMPLETED is rejected by the service itself; Donation.cancel then also
rejects EXPIRED by raising, which aborts the transaction (row rolled
back) and is mapped to an error response by handle_exception. -/
def cancel_donation (d : Donation) (user : Nat) : ServiceResult :=
  if user ≠ d.donor then
    { success := false,
      message := "Only the donor can cancel this donation",
      donation := d }
  else if d.status = .completed then
    { success := false,
      message := "Cannot cancel completed donations",
      donation := d }
  else
    match d.cancel with
    | (some e, _) =>
      { success := false,
        message := "donation cancellation: Validation error - " ++ e,
        donation := d }
    | (none, d2) =>
      { success := true, message := "Donation cancelled successfully",
        donation := d2 }

/-- The category bonus table of _calculate_nutrition_score, with the
dict .get default of 0 for an unknown category. -/
def category_bonus (c : String) : Int :=
  if c = "fruits" then 25
  else if c = "vegetables" then 25
  else if c = "protein" then 20
  else if c = "grains" then 15
  else if c = "dairy" then 10
  else if c = "pantry" then 5
  else if c = "prepared" then 10
  else if c = "beverages" then 5
  else if c = "other" then 5
  else 0

/-- The tiered freshness bonus of _calculate_nutrition_score: hours until
expiry compared against 48, 24 and 12, here in exact seconds. -/
def freshness_bonus (now expiry : Int) : Int :=
  let secs := expiry - now
  if secs > 48 * 3600 then 15
  else if secs > 24 * 3600 then 10
  else if secs > 12 * 3600 then 5
  else 0

/-- The calories penalty of _calculate_nutrition_score: guarded by Python
truthiness (None and 0 are falsy), then 5 points off above 500. -/
def calorie_penalty (cal : Option Int) : Int :=
  match cal with
  | none => 0
  | some c => if c ≠ 0 then (if c > 500 then 5 else 0) else 0

/-- The dietary tags bonus of _calculate_nutrition_score: an empty list
is falsy; otherwise 2 points per tag capped at 10. -/
def tag_bonus (tags : List String) : Int :=
  if tags.isEmpty then 0 else min ((tags.length : Int) * 2) 10

/-- DonationService._calculate_nutrition_score: a base of 50,
accumulating the category bonus, the freshness bonus, the calories
penalty and the tags bonus in source order, clamped to 0..100. -/
def calculate_nutrition_score (now : Int) (d : Donation) : Int :=
  let score : Int := 50
  let score := score + category_bonus d.food_category
  let score := score + freshness_bonus now d.expiry_datetime
  let score := score - calorie_penalty d.estimated_calories
  let score := score + tag_bonus d.dietary_tags
  min 100 (max 0 score)

/-! Concrete fixtures used by witnesses and counterexamples. -/

/-- A fresh donation as created by create_donation: Available, no
recipient, no claimed_at, no completed_at. -/
def donationA : Donation :=
  { donor := 1, recipient := none, title := "Apples", description := "Fresh",
    food_category := "fruits", quantity := 2, status := .available,
    expiry_datetime := 1000000, pickup_start := 10, pickup_end := 500000,
    pickup_location := "Market", dietary_tags := [],
    estimated_calories := none, nutrition_score := 50,
    claimed_at := none, completed_at := none }

/-- A verified recipient profile. -/
def profileR1 : UserProfile :=
  { user := 7, user_type := "recipient", email_verified := true,
    dietary_restrictions := [] }

/-- A second verified recipient profile. -/
def profileR2 : UserProfile :=
  { user := 8, user_type := "recipient", email_verified := true,
    dietary_restrictions := [] }

/-- A verified recipient profile whose dietary restriction set holds the
allergen tag nuts. -/
def profileNutAllergy : UserProfile :=
  { user := 9, user_type := "recipient", email_verified := true,
    dietary_restrictions := ["nuts"] }

/-- donationA carrying the allergen tag nuts. -/
def donationWithNuts : Donation :=
  { donationA with dietary_tags := ["nuts"] }

/-! Helper lemmas about claim eligibility. -/

/-- When the recipient is a verified recipient under quota and the
donation is available, unexpired and not overdue, every eligibility
check passes. -/
theorem validate_eligibility_ok (now : Int) (db : List Donation)
    (d : Donation) (p : UserProfile)
    (hr : p.user_type = UserProfile.RECIPIENT)
    (hv : p.email_verified = true)
    (hs : d.status = .available)
    (he : d.is_expired now = false)
    (ho : d.is_pickup_overdue now = false)
    (hq : countActiveClaims db p.user < MAX_ACTIVE_CLAIMS) :
    validate_claim_eligibility now db d p = none := by
  unfold validate_claim_eligibility
  rw [hr, hv, hs, he, ho]
  simp [Nat.not_le.mpr hq]

/-- When every eligibility check passes, claim_donation succeeds and
returns the row with recipient, status and claimed_at updated. -/
theorem claim_donation_ok (now : Int) (db : List Donation)
    (d : Donation) (p : UserProfile)
    (hr : p.user_type = UserProfile.RECIPIENT)
    (hv : p.email_verified = true)
    (hs : d.status = .available)
    (he : d.is_expired now = false)
    (ho : d.is_pickup_overdue now = false)
    (hq : countActiveClaims db p.user < MAX_ACTIVE_CLAIMS) :
    claim_donation now db d p =
      { success := true, message := "Donation claimed successfully",
        donation := { d with recipient := some p.user, status := .claimed,
                             claimed_at := some now } } := by
  unfold claim_donation
  rw [validate_eligibility_ok now db d p hr hv hs he ho hq]
  unfold Donation.claim
  rw [hs, he]
  simp

/-- When the profile checks pass but the donation is not available,
eligibility fails with the status message. -/
theorem validate_eligibility_not_available (now : Int) (db : List Donation)
    (d : Donation) (p : UserProfile)
    (hr : p.user_type = UserProfile.RECIPIENT)
    (hv : p.email_verified = true)
    (hs : d.status ≠ .available) :
    validate_claim_eligibility now db d p =
      some ("This donation is " ++ d.status.displayLower) := by
  unfold validate_claim_eligibility
  rw [hr, hv]
  simp [hs]

/-- When the profile checks pass but the donation is not available,
claim_donation fails with the status message and returns the row
untouched. -/
theorem claim_donation_not_available (now : Int) (db : List Donation)
    (d : Donation) (p : UserProfile)
    (hr : p.user_type = UserProfile.RECIPIENT)
    (hv : p.email_verified = true)
    (hs : d.status ≠ .available) :
    claim_donation now db d p =
      { success := false,
        message := "This donation is " ++ d.status.displayLower,
        donation := d } := by
  unfold claim_donation
  rw [validate_eligibility_not_available now db d p hr hv hs]

/-- Claim C1: two sequential claim calls by distinct eligible recipients
on one available, unexpired, not overdue donation: the first succeeds,
setting recipient, status Claimed and claimed_at; the second fails with
the not-available style message and leaves the row exactly as the first
call left it. -/
theorem claim_race_second_fails (now1 now2 : Int) (db1 db2 : List Donation)
    (d : Donation) (p1 p2 : UserProfile)
    (hne : p1.user ≠ p2.user)
    (hr1 : p1.user_type = UserProfile.RECIPIENT)
    (hv1 : p1.email_verified = true)
    (hq1 : countActiveClaims db1 p1.user < MAX_ACTIVE_CLAIMS)
    (hr2 : p2.user_type = UserProfile.RECIPIENT)
    (hv2 : p2.email_verified = true)
    (hq2 : countActiveClaims db2 p2.user < MAX_ACTIVE_CLAIMS)
    (hs : d.status = .available)
    (he : d.is_expired now1 = false)
    (ho : d.is_pickup_overdue now1 = false) :
    (claim_donation now1 db1 d p1).success = true ∧
    (claim_donation now1 db1 d p1).donation.recipient = some p1.user ∧
    (claim_donation now1 db1 d p1).donation.status = .claimed ∧
    (claim_donation now1 db1 d p1).donation.claimed_at = some now1 ∧
    (claim_donation now2 db2 (claim_donation now1 db1 d p1).donation p2).success
      = false ∧
    (claim_donation now2 db2 (claim_donation now1 db1 d p1).donation p2).message
      = "This donation is claimed" ∧
    (claim_donation now2 db2 (claim_donation now1 db1 d p1).donation p2).donation
      = (claim_donation now1 db1 d p1).donation := by
  have h1 := claim_donation_ok now1 db1 d p1 hr1 hv1 hs he ho hq1
  rw [h1]
  have h2 := claim_donation_not_available now2 db2
    { d with recipient := some p1.user, status := .claimed,
             claimed_at := some now1 } p2 hr2 hv2 (by simp)
  simp only at h2 ⊢
  rw [h2]
  simp [DStatus.displayLower]

/-- Claim C1 witness at concrete inputs. -/
theorem claim_race_second_fails_witness :
    donationA.status = DStatus.available ∧
    (claim_donation 100 [] donationA profileR1).success = true ∧
    (claim_donation 200 []
      (claim_donation 100 [] donationA profileR1).donation profileR2).success
      = false := by
  refine ⟨rfl, ?_, ?_⟩
  · exact (claim_race_second_fails 100 200 [] [] donationA profileR1 profileR2
      (by decide) rfl rfl (by decide) rfl rfl (by decide) rfl (by decide)
      (by decide)).1
  · exact (claim_race_second_fails 100 200 [] [] donationA profileR1 profileR2
      (by decide) rfl rfl (by decide) rfl rfl (by decide) rfl (by decide)
      (by decide)).2.2.2.2.1

/-- Claim C3 counterexample: through DonationService.claim_donation a
claim on an available but expired donation fails with the expiry message
yet leaves the status Available, not Expired: the eligibility check
returns before Donation.claim can flip the status. -/
theorem claim_expired_status_counterexample :
    (claim_donation 2000000 [] donationA profileR1).success = false ∧
    (claim_donation 2000000 [] donationA profileR1).message
      = "This donation has expired" ∧
    (claim_donation 2000000 [] donationA profileR1).donation.status
      = DStatus.available ∧
    (claim_donation 2000000 [] donationA profileR1).donation.status
      ≠ DStatus.expired := by decide

/-- Claim C3 amended: a claim through the service on an available but
expired donation fails with the expiry message and leaves the row
untouched (status stays Available); only the model method Donation.claim,
which the service never reaches in this case, flips the status to
Expired while failing. -/
theorem claim_expired_amended (now : Int) (db : List Donation)
    (d : Donation) (p : UserProfile) (u : Nat)
    (hr : p.user_type = UserProfile.RECIPIENT)
    (hv : p.email_verified = true)
    (hs : d.status = .available)
    (he : d.is_expired now = true) :
    (claim_donation now db d p).success = false ∧
    (claim_donation now db d p).message = "This donation has expired" ∧
    (claim_donation now db d p).donation = d ∧
    (d.claim now u).1 = some "This donation has expired" ∧
    (d.claim now u).2.status = DStatus.expired := by
  have hval : validate_claim_eligibility now db d p
      = some "This donation has expired" := by
    unfold validate_claim_eligibility
    rw [hr, hv, hs, he]
    simp
  unfold claim_donation Donation.claim
  rw [hval, hs, he]
  simp

/-- Claim C3 amended witness at concrete inputs. -/
theorem claim_expired_amended_witness :
    donationA.is_expired 2000000 = true ∧
    (claim_donation 2000000 [] donationA profileR1).donation = donationA ∧
    (donationA.claim 2000000 7).2.status = DStatus.expired := by
  refine ⟨by decide, ?_, ?_⟩
  · exact (claim_expired_amended 2000000 [] donationA profileR1 7 rfl rfl rfl
      (by decide)).2.2.1
  · exact (claim_expired_amended 2000000 [] donationA profileR1 7 rfl rfl rfl
      (by decide)).2.2.2.2

/-- Claim C4: the code at the failing input. The profile restriction set
and the donation tag set share the allergen tag nuts, yet
is_dietary_compatible returns true; with the nuts tag absent from the
donation it returns false. The subset rule of the code points the
opposite way from the allergen-exclusion rule of the spec. -/
theorem dietary_compatible_allergen_bug :
    "nuts" ∈ profileNutAllergy.dietary_restrictions ∧
    "nuts" ∈ donationWithNuts.dietary_tags ∧
    "nuts" ∈ get_allergen_tags ∧
    profileNutAllergy.is_dietary_compatible donationWithNuts = true ∧
    profileNutAllergy.is_dietary_compatible donationA = false := by decide

/-- The nutrition score as the spec words it after amendment: base 50
plus category bonus plus tiered freshness bonus plus tag bonus minus the
calories penalty, clamped to 0..100. -/
def nutritionScoreFormula (now : Int) (d : Donation) : Int :=
  min 100 (max 0 (50 + category_bonus d.food_category
    + freshness_bonus now d.expiry_datetime
    + tag_bonus d.dietary_tags
    - calorie_penalty d.estimated_calories))

/-- donationA expiring 200 hours after the clock origin. -/
def donationFresh : Donation :=
  { donationA with expiry_datetime := 720000 }

/-- donationFresh with 600 estimated calories. -/
def donationFreshHighCal : Donation :=
  { donationFresh with estimated_calories := some 600 }

/-- Claim C9 counterexample: two donations agreeing on category, expiry
and tags but differing in estimated calories get different scores (90
against 85), so the score does not depend only on category, freshness
and tag count. -/
theorem nutrition_score_calories_counterexample :
    donationFresh.food_category = donationFreshHighCal.food_category ∧
    donationFresh.expiry_datetime = donationFreshHighCal.expiry_datetime ∧
    donationFresh.dietary_tags = donationFreshHighCal.dietary_tags ∧
    calculate_nutrition_score 0 donationFresh = 90 ∧
    calculate_nutrition_score 0 donationFreshHighCal = 85 := by decide

/-- Claim C9 amended: the score is the clamped sum of the base, the
category bonus, the tiered freshness bonus, the tag bonus and the
calories penalty, lies in 0..100, and depends on nothing beyond
category, expiry, tags and estimated calories. -/
theorem nutrition_score_spec (now : Int) (d d2 : Donation)
    (h1 : d.food_category = d2.food_category)
    (h2 : d.expiry_datetime = d2.expiry_datetime)
    (h3 : d.dietary_tags = d2.dietary_tags)
    (h4 : d.estimated_calories = d2.estimated_calories) :
    calculate_nutrition_score now d = nutritionScoreFormula now d ∧
    0 ≤ calculate_nutrition_score now d ∧
    calculate_nutrition_score now d ≤ 100 ∧
    calculate_nutrition_score now d = calculate_nutrition_score now d2 := by
  unfold calculate_nutrition_score nutritionScoreFormula
  rw [h1, h2, h3, h4]
  dsimp only
  omega

/-- Claim C9 amended witness at concrete inputs. -/
theorem nutrition_score_spec_witness :
    donationA.food_category = donationA.food_category ∧
    calculate_nutrition_score 0 donationA = nutritionScoreFormula 0 donationA ∧
    calculate_nutrition_score 0 donationA ≤ 100 :=
  ⟨rfl, (nutrition_score_spec 0 donationA donationA rfl rfl rfl rfl).1,
    (nutrition_score_spec 0 donationA donationA rfl rfl rfl rfl).2.2.1⟩

/-- Claim C10: a successful Donation.claim only writes recipient, status
and claimed_at; every other field of the row is returned unchanged. -/
theorem claim_frame (now : Int) (user : Nat) (d d2 : Donation)
    (h : d.claim now user = (none, d2)) :
    d2.donor = d.donor ∧ d2.title = d.title ∧
    d2.description = d.description ∧
    d2.food_category = d.food_category ∧ d2.quantity = d.quantity ∧
    d2.expiry_datetime = d.expiry_datetime ∧
    d2.pickup_start = d.pickup_start ∧ d2.pickup_end = d.pickup_end ∧
    d2.pickup_location = d.pickup_location ∧
    d2.dietary_tags = d.dietary_tags ∧
    d2.estimated_calories = d.estimated_calories ∧
    d2.nutrition_score = d.nutrition_score ∧
    d2.completed_at = d.completed_at := by
  unfold Donation.claim at h
  split_ifs at h <;> simp_all
  subst h
  simp

/-- Claim C10 witness at concrete inputs. -/
theorem claim_frame_witness :
    (donationA.claim 100 7).1 = none ∧
    (donationA.claim 100 7).2.donor = donationA.donor ∧
    (donationA.claim 100 7).2.title = donationA.title := by
  refine ⟨by decide, ?_, ?_⟩
  · exact (claim_frame 100 7 donationA (donationA.claim 100 7).2
      (by decide)).1
  · exact (claim_frame 100 7 donationA (donationA.claim 100 7).2
      (by decide)).2.1

/-- The row donationA after profileR1 claims it at time 100. -/
def donationClaimedByR1 : Donation :=
  (claim_donation 100 [] donationA profileR1).donation

/-- Claim C6: complete_donation fails and leaves the row untouched when
the actor is neither donor nor recipient or the status is not Claimed;
with an authorized actor on a Claimed row it succeeds, setting status
Completed and completed_at to the current time. -/
theorem complete_donation_spec (now : Int) (d : Donation) (user : Nat) :
    (((user ≠ d.donor ∧ some user ≠ d.recipient) ∨ d.status ≠ .claimed) →
      (complete_donation now d user).success = false ∧
      (complete_donation now d user).donation = d) ∧
    (((user = d.donor ∨ some user = d.recipient) ∧ d.status = .claimed) →
      (complete_donation now d user).success = true ∧
      (complete_donation now d user).donation.status = .completed ∧
      (complete_donation now d user).donation.completed_at = some now) := by
  constructor
  · intro h
    unfold complete_donation
    split_ifs with h1 h2
    · exact ⟨rfl, rfl⟩
    · exact ⟨rfl, rfl⟩
    · rcases h with hauth | hstatus
      · exact absurd hauth h1
      · exact absurd hstatus h2
  · rintro ⟨hauth, hs⟩
    have hneg : ¬(user ≠ d.donor ∧ some user ≠ d.recipient) := by
      rcases hauth with h | h
      · exact fun hc => hc.1 h
      · exact fun hc => hc.2 h
    unfold complete_donation Donation.complete
    rw [if_neg hneg, hs]
    simp

/-- Claim C6 witness at concrete inputs: the donor completes a claimed
row. -/
theorem complete_donation_spec_witness :
    ((1 = donationClaimedByR1.donor ∨ some 1 = donationClaimedByR1.recipient)
      ∧ donationClaimedByR1.status = DStatus.claimed) ∧
    (complete_donation 300 donationClaimedByR1 1).success = true ∧
    (complete_donation 300 donationClaimedByR1 1).donation.status
      = DStatus.completed :=
  ⟨⟨Or.inl (by decide), by decide⟩,
    ((complete_donation_spec 300 donationClaimedByR1 1).2
      ⟨Or.inl (by decide), by decide⟩).1,
    ((complete_donation_spec 300 donationClaimedByR1 1).2
      ⟨Or.inl (by decide), by decide⟩).2.1⟩

/-- Claim C7: cancel_donation fails and leaves the row untouched when
the actor is not the donor, and when the status is Completed or Expired
(the Expired case through the raise inside Donation.cancel, which aborts
the transaction); when the donor cancels an Available or Claimed row it
succeeds and sets status Cancelled. -/
theorem cancel_donation_spec (d : Donation) (user : Nat) :
    (user ≠ d.donor →
      (cancel_donation d user).success = false ∧
      (cancel_donation d user).donation = d) ∧
    ((d.status = .completed ∨ d.status = .expired) →
      (cancel_donation d user).success = false ∧
      (cancel_donation d user).donation = d) ∧
    ((user = d.donor ∧ (d.status = .available ∨ d.status = .claimed)) →
      (cancel_donation d user).success = true ∧
      (cancel_donation d user).donation.status = .cancelled) := by
  refine ⟨?_, ?_, ?_⟩
  · intro h
    unfold cancel_donation
    rw [if_pos h]
    exact ⟨rfl, rfl⟩
  · intro h
    unfold cancel_donation Donation.cancel
    split_ifs
    · exact ⟨rfl, rfl⟩
    · exact ⟨rfl, rfl⟩
    · exact ⟨rfl, rfl⟩
  · rintro ⟨hu, hs⟩
    have h1 : ¬ user ≠ d.donor := fun hc => hc hu
    have h2 : ¬ d.status = .completed := by
      rcases hs with h | h <;> simp [h]
    have h3 : ¬ (d.status = .completed ∨ d.status = .expired) := by
      rcases hs with h | h <;> simp [h]
    unfold cancel_donation Donation.cancel
    rw [if_neg h1, if_neg h2, if_neg h3]
    exact ⟨rfl, rfl⟩

/-- Claim C7 witness at concrete inputs: the donor cancels a claimed
row. -/
theorem cancel_donation_spec_witness :
    (1 = donationClaimedByR1.donor ∧
      (donationClaimedByR1.status = DStatus.available ∨
       donationClaimedByR1.status = DStatus.claimed)) ∧
    (cancel_donation donationClaimedByR1 1).success = true ∧
    (cancel_donation donationClaimedByR1 1).donation.status
      = DStatus.cancelled :=
  ⟨⟨by decide, Or.inr (by decide)⟩,
    ((cancel_donation_spec donationClaimedByR1 1).2.2
      ⟨by decide, Or.inr (by decide)⟩).1,
    ((cancel_donation_spec donationClaimedByR1 1).2.2
      ⟨by decide, Or.inr (by decide)⟩).2⟩

/-- Claim C8: with every other eligibility condition met, a recipient at
or over MAX_ACTIVE_CLAIMS concurrently Claimed donations is refused with
the quota message and the row is untouched, while a recipient under the
quota is not blocked and the claim goes through. -/
theorem claim_quota (now : Int) (db : List Donation) (d : Donation)
    (p : UserProfile)
    (hr : p.user_type = UserProfile.RECIPIENT)
    (hv : p.email_verified = true)
    (hs : d.status = .available)
    (he : d.is_expired now = false)
    (ho : d.is_pickup_overdue now = false) :
    (countActiveClaims db p.user ≥ MAX_ACTIVE_CLAIMS →
      (claim_donation now db d p).success = false ∧
      (claim_donation now db d p).message =
        "You have reached the maximum of 5 active claims" ∧
      (claim_donation now db d p).donation = d) ∧
    (countActiveClaims db p.user < MAX_ACTIVE_CLAIMS →
      (claim_donation now db d p).success = true ∧
      (claim_donation now db d p).donation.status = .claimed) := by
  constructor
  · intro hq
    have hval : validate_claim_eligibility now db d p =
        some "You have reached the maximum of 5 active claims" := by
      unfold validate_claim_eligibility
      rw [hr, hv, hs, he, ho]
      simp [hq]
      decide
    unfold claim_donation
    rw [hval]
    exact ⟨rfl, rfl, rfl⟩
  · intro hq
    rw [claim_donation_ok now db d p hr hv hs he ho hq]
    exact ⟨rfl, rfl⟩

/-- Claim C8 witness at concrete inputs: five claimed rows held by the
recipient block a sixth claim; an empty database does not. -/
theorem claim_quota_witness :
    countActiveClaims
      (List.replicate 5 donationClaimedByR1) profileR1.user
      ≥ MAX_ACTIVE_CLAIMS ∧
    (claim_donation 100 (List.replicate 5 donationClaimedByR1) donationA
      profileR1).success = false ∧
    (claim_donation 100 (List.replicate 5 donationClaimedByR1) donationA
      profileR1).message =
      "You have reached the maximum of 5 active claims" ∧
    countActiveClaims ([] : List Donation) profileR1.user
      < MAX_ACTIVE_CLAIMS ∧
    (claim_donation 100 [] donationA profileR1).success = true :=
  ⟨by decide,
    ((claim_quota 100 (List.replicate 5 donationClaimedByR1) donationA
      profileR1 rfl rfl rfl (by decide) (by decide)).1 (by decide)).1,
    ((claim_quota 100 (List.replicate 5 donationClaimedByR1) donationA
      profileR1 rfl rfl rfl (by decide) (by decide)).1 (by decide)).2.1,
    by decide,
    ((claim_quota 100 [] donationA profileR1 rfl rfl rfl (by decide)
      (by decide)).2 (by decide)).1⟩

/-- Whatever the profile, claim_donation on a donation that is not
available fails and returns the row untouched. -/
theorem claim_donation_fails_any (now : Int) (db : List Donation)
    (d : Donation) (p : UserProfile) (hs : d.status ≠ .available) :
    (claim_donation now db d p).success = false ∧
    (claim_donation now db d p).donation = d := by
  unfold claim_donation validate_claim_eligibility
  by_cases h1 : p.user_type ≠ UserProfile.RECIPIENT
  · rw [if_pos h1]
    exact ⟨rfl, rfl⟩
  · rw [if_neg h1]
    by_cases h2 : ¬p.email_verified
    · rw [if_pos h2]
      exact ⟨rfl, rfl⟩
    · rw [if_neg h2, if_pos hs]
      exact ⟨rfl, rfl⟩

/-- Whatever the actor, complete_donation on a donation that is not
claimed fails and returns the row untouched. -/
theorem complete_donation_fails_any (now : Int) (d : Donation)
    (user : Nat) (hs : d.status ≠ .claimed) :
    (complete_donation now d user).success = false ∧
    (complete_donation now d user).donation = d := by
  unfold complete_donation
  by_cases h1 : user ≠ d.donor ∧ some user ≠ d.recipient
  · rw [if_pos h1]
    exact ⟨rfl, rfl⟩
  · rw [if_neg h1, if_pos hs]
    exact ⟨rfl, rfl⟩

/-- cancel_donation on a terminal row never changes the status value:
Completed and Expired are refused, Cancelled is re-cancelled to the same
value. -/
theorem cancel_donation_terminal_status (d : Donation) (user : Nat)
    (h : d.status = .completed ∨ d.status = .cancelled ∨
      d.status = .expired) :
    (cancel_donation d user).donation.status = d.status := by
  unfold cancel_donation Donation.cancel
  by_cases h1 : user ≠ d.donor
  · rw [if_pos h1]
  · rw [if_neg h1]
    rcases h with hs | hs | hs
    · rw [if_pos hs]
    · have h2 : ¬ d.status = .completed := by rw [hs]; simp
      have hng : ¬(d.status = .completed ∨ d.status = .expired) := by
        rw [hs]; simp
      rw [if_neg h2, if_neg hng]
      simp [hs]
    · have h2 : ¬ d.status = .completed := by rw [hs]; simp
      rw [if_neg h2, if_pos (Or.inr hs)]

/-- Claim C2: on a donation in a terminal state (Completed, Cancelled or
Expired) no claim, complete or cancel operation, at the service level or
at the model level, changes the status value; claiming and completing
moreover always fail there. -/
theorem terminal_states_frozen (now : Int) (db : List Donation)
    (d : Donation) (p : UserProfile) (user : Nat)
    (h : d.status = .completed ∨ d.status = .cancelled ∨
      d.status = .expired) :
    (claim_donation now db d p).success = false ∧
    (claim_donation now db d p).donation.status = d.status ∧
    (complete_donation now d user).success = false ∧
    (complete_donation now d user).donation.status = d.status ∧
    (cancel_donation d user).donation.status = d.status ∧
    (d.claim now user).2.status = d.status ∧
    (d.complete now).2.status = d.status ∧
    d.cancel.2.status = d.status := by
  have hsa : d.status ≠ .available := by
    rcases h with hs | hs | hs <;> simp [hs]
  have hsc : d.status ≠ .claimed := by
    rcases h with hs | hs | hs <;> simp [hs]
  obtain ⟨c1, c2⟩ := claim_donation_fails_any now db d p hsa
  obtain ⟨c3, c4⟩ := complete_donation_fails_any now d user hsc
  refine ⟨c1, by rw [c2], c3, by rw [c4],
    cancel_donation_terminal_status d user h, ?_, ?_, ?_⟩
  · unfold Donation.claim
    rw [if_pos hsa]
  · unfold Donation.complete
    rw [if_pos hsc]
  · unfold Donation.cancel
    rcases h with hs | hs | hs
    · rw [if_pos (Or.inl hs)]
    · have hng : ¬(d.status = .completed ∨ d.status = .expired) := by
        rw [hs]; simp
      rw [if_neg hng]
      simp [hs]
    · rw [if_pos (Or.inr hs)]

/-- Claim C2 witness at a concrete terminal state. -/
theorem terminal_states_frozen_witness :
    (donationFresh.status = DStatus.completed ∨
     ({ donationFresh with status := DStatus.expired }).status
        = DStatus.cancelled ∨
     ({ donationFresh with status := DStatus.expired }).status
        = DStatus.expired) ∧
    (claim_donation 100 [] { donationFresh with status := DStatus.expired }
      profileR1).success = false ∧
    ({ donationFresh with status := DStatus.expired }).cancel.2.status
      = DStatus.expired :=
  ⟨Or.inr (Or.inr rfl),
    (terminal_states_frozen 100 [] { donationFresh with status := DStatus.expired }
      profileR1 1 (Or.inr (Or.inr rfl))).1,
    (terminal_states_frozen 100 [] { donationFresh with status := DStatus.expired }
      profileR1 1 (Or.inr (Or.inr rfl))).2.2.2.2.2.2.2⟩

/-- The timestamp pattern that actually holds on every reachable row:
completed_at is set exactly on Completed rows; claimed_at is set on
every Claimed or Completed row; and a set claimed_at confines the status
to Claimed, Completed or Cancelled (a claimed row cancelled by its donor
keeps claimed_at). -/
def DonationInv (d : Donation) : Prop :=
  (d.completed_at ≠ none ↔ d.status = .completed) ∧
  ((d.status = .claimed ∨ d.status = .completed) → d.claimed_at ≠ none) ∧
  (d.claimed_at ≠ none →
    d.status = .claimed ∨ d.status = .completed ∨ d.status = .cancelled)

/-- The donation states reachable from a fresh row (Available, no
claimed_at, no completed_at) through the lifecycle operations, at the
service level or at the model level. -/
inductive Reachable : Donation → Prop
  | init (d : Donation) (hs : d.status = .available)
      (hc : d.claimed_at = none) (hx : d.completed_at = none) :
      Reachable d
  | claim (d : Donation) (now : Int) (db : List Donation)
      (p : UserProfile) (h : Reachable d) :
      Reachable (claim_donation now db d p).donation
  | complete (d : Donation) (now : Int) (user : Nat) (h : Reachable d) :
      Reachable (complete_donation now d user).donation
  | cancel (d : Donation) (user : Nat) (h : Reachable d) :
      Reachable (cancel_donation d user).donation
  | mclaim (d : Donation) (now : Int) (user : Nat) (h : Reachable d) :
      Reachable (d.claim now user).2
  | mcomplete (d : Donation) (now : Int) (h : Reachable d) :
      Reachable (d.complete now).2
  | mcancel (d : Donation) (h : Reachable d) :
      Reachable d.cancel.2

/-- Donation.claim preserves the timestamp pattern. -/
theorem inv_claim (d : Donation) (now : Int) (u : Nat)
    (h : DonationInv d) : DonationInv (d.claim now u).2 := by
  obtain ⟨h1, h2, h3⟩ := h
  unfold Donation.claim
  split_ifs with hA hE
  · exact ⟨h1, h2, h3⟩
  · have hs : d.status = .available := not_not.mp hA
    have hx : d.completed_at = none := by
      by_contra hc
      rw [h1.mp hc] at hs
      exact DStatus.noConfusion hs
    have hcn : d.claimed_at = none := by
      by_contra hc
      rcases h3 hc with h | h | h <;> rw [h] at hs <;>
        exact DStatus.noConfusion hs
    exact ⟨by simp [hx], by simp, by simp [hcn]⟩
  · have hs : d.status = .available := not_not.mp hA
    have hx : d.completed_at = none := by
      by_contra hc
      rw [h1.mp hc] at hs
      exact DStatus.noConfusion hs
    exact ⟨by simp [hx], by simp, by simp⟩

/-- Donation.complete preserves the timestamp pattern. -/
theorem inv_complete (d : Donation) (now : Int)
    (h : DonationInv d) : DonationInv (d.complete now).2 := by
  obtain ⟨h1, h2, h3⟩ := h
  unfold Donation.complete
  split_ifs with hC
  · exact ⟨h1, h2, h3⟩
  · have hs : d.status = .claimed := not_not.mp hC
    have hcl : d.claimed_at ≠ none := h2 (Or.inl hs)
    exact ⟨by simp, by simp [hcl], by simp⟩

/-- Donation.cancel preserves the timestamp pattern. -/
theorem inv_cancel (d : Donation)
    (h : DonationInv d) : DonationInv d.cancel.2 := by
  obtain ⟨h1, h2, h3⟩ := h
  unfold Donation.cancel
  split_ifs with hT
  · exact ⟨h1, h2, h3⟩
  · have hx : d.completed_at = none := by
      by_contra hc
      exact hT (Or.inl (h1.mp hc))
    exact ⟨by simp [hx], by simp, by simp⟩

/-- DonationService.claim_donation preserves the timestamp pattern. -/
theorem inv_claim_donation (now : Int) (db : List Donation)
    (d : Donation) (p : UserProfile)
    (h : DonationInv d) : DonationInv (claim_donation now db d p).donation := by
  unfold claim_donation
  cases hval : validate_claim_eligibility now db d p with
  | some e => exact h
  | none =>
    cases hc : d.claim now p.user with
    | mk o d2 =>
      cases o with
      | some e => exact h
      | none =>
        have h2 := inv_claim d now p.user h
        rw [hc] at h2
        exact h2

/-- DonationService.complete_donation preserves the timestamp
pattern. -/
theorem inv_complete_donation (now : Int) (d : Donation) (user : Nat)
    (h : DonationInv d) :
    DonationInv (complete_donation now d user).donation := by
  unfold complete_donation
  split_ifs
  · exact h
  · exact h
  · cases hc : d.complete now with
    | mk o d2 =>
      cases o with
      | some e => exact h
      | none =>
        have h2 := inv_complete d now h
        rw [hc] at h2
        exact h2

/-- DonationService.cancel_donation preserves the timestamp pattern. -/
theorem inv_cancel_donation (d : Donation) (user : Nat)
    (h : DonationInv d) :
    DonationInv (cancel_donation d user).donation := by
  unfold cancel_donation
  split_ifs
  · exact h
  · exact h
  · cases hc : d.cancel with
    | mk o d2 =>
      cases o with
      | some e => exact h
      | none =>
        have h2 := inv_cancel d h
        rw [hc] at h2
        exact h2

/-- Claim C5 amended: on every reachable donation state, completed_at is
set iff the status is Completed; claimed_at is set whenever the status
is Claimed or Completed; and claimed_at may only be set while the status
is Claimed, Completed or Cancelled: cancelling a claimed donation keeps
claimed_at set, so set-iff-Claimed-or-Completed does not hold. -/
theorem reachable_timestamp_inv (d : Donation) (h : Reachable d) :
    DonationInv d := by
  induction h with
  | init d hs hc hx =>
    exact ⟨by simp [hx, hs], by simp [hs], by simp [hc]⟩
  | claim d now db p h ih => exact inv_claim_donation now db d p ih
  | complete d now user h ih => exact inv_complete_donation now d user ih
  | cancel d user h ih => exact inv_cancel_donation d user ih
  | mclaim d now user h ih => exact inv_claim d now user ih
  | mcomplete d now h ih => exact inv_complete d now ih
  | mcancel d h ih => exact inv_cancel d ih

/-- Claim C5 amended witness: the invariant holds at the fresh concrete
row. -/
theorem reachable_timestamp_inv_witness :
    donationA.status = DStatus.available ∧ DonationInv donationA :=
  ⟨rfl, reachable_timestamp_inv donationA
    (Reachable.init donationA rfl rfl rfl)⟩

/-- The row donationClaimedByR1 after its donor cancels it. -/
def donationCancelledAfterClaim : Donation :=
  (cancel_donation donationClaimedByR1 1).donation

/-- Claim C5 counterexample: a reachable state (create, claim, donor
cancel) whose status is Cancelled while claimed_at is still set, so
claimed_at-set is not equivalent to status being Claimed or
Completed. -/
theorem claimed_at_iff_counterexample :
    Reachable donationCancelledAfterClaim ∧
    donationCancelledAfterClaim.status = DStatus.cancelled ∧
    donationCancelledAfterClaim.claimed_at = some 100 ∧
    ¬(donationCancelledAfterClaim.claimed_at ≠ none ↔
      (donationCancelledAfterClaim.status = DStatus.claimed ∨
       donationCancelledAfterClaim.status = DStatus.completed)) := by
  refine ⟨?_, by decide, by decide, by decide⟩
  exact Reachable.cancel donationClaimedByR1 1
    (Reachable.claim donationA 100 [] profileR1
      (Reachable.init donationA rfl rfl rfl))

end FoodLoop
